import Mathlib

/-! Shallow embedding of the ReefGuard access-control layer
(`src/core/decorators.py`): the `role_required` function guard and its named
presets, the `RoleRequiredMixin` class-based guard with its fixed-role
specializations, and the `StaffOrOwnerMixin` ownership guard.

Requests, users and guarded objects are modelled from the spec, since the
user model and the surrounding view machinery live outside `src/`: a user
carries an authentication status and a string `role` attribute; a guarded
object is a finite association of field names to owner users, resolved by
the view's `get_object()`. The framework collaborators are embedded per
their documented behaviour: `login_required` and `LoginRequiredMixin`
redirect unauthenticated requests to the login page, and
`UserPassesTestMixin` consults `test_func` and routes failures to
`handle_no_permission`. -/

/-- A user as the spec's data model describes it: an authentication status
and a string `role` attribute. The `id` field distinguishes distinct user
records. -/
structure User where
  id : Nat
  is_authenticated : Bool
  role : String
deriving DecidableEq

/-- An inbound request: a request-object identity plus the requesting user
(`request.user`). Two requests with equal `user` but different `id` model
structurally identical but distinct request objects. -/
structure Request where
  id : Nat
  user : User
deriving DecidableEq

/-- Outcome of one guarded dispatch: the wrapped handler's result, a redirect
to the login page (the framework's login-required flow), or a
PermissionDenied error. -/
inductive Outcome (α : Type) where
  | ok : α → Outcome α
  | redirectToLogin : Outcome α
  | permissionDenied : Outcome α
deriving DecidableEq

/-- Result of evaluating a guard on one request: the outcome together with
the flash messages attached via `messages.error`. -/
structure GuardResult (α : Type) where
  outcome : Outcome α
  messages : List String
deriving DecidableEq

/-- The permit/deny decision an outcome represents, with the handler's value
erased, for comparing decisions across distinct requests. -/
def Outcome.decision {α : Type} : Outcome α → Outcome Unit
  | Outcome.ok _ => Outcome.ok ()
  | Outcome.redirectToLogin => Outcome.redirectToLogin
  | Outcome.permissionDenied => Outcome.permissionDenied

/-- The denial message built by `role_required` and
`RoleRequiredMixin.handle_no_permission`: the allowed roles joined by
`" or "` inside the fixed sentence. -/
def denialMessage (roles : List String) : String :=
  "Access denied. This feature requires " ++ String.intercalate " or " roles ++ " role."

/-- `role_required(*roles)` applied to a view function and evaluated on one
request: the inner `login_required` redirects unauthenticated requests to
login; otherwise `request.user.role in roles` either forwards to the view
with the original arguments or attaches the denial message and raises
PermissionDenied. -/
def role_required {α β : Type} (roles : List String) (view_func : Request → β → α)
    (request : Request) (args : β) : GuardResult α :=
  if request.user.is_authenticated then
    if request.user.role ∈ roles then
      ⟨Outcome.ok (view_func request args), []⟩
    else
      ⟨Outcome.permissionDenied, [denialMessage roles]⟩
  else
    ⟨Outcome.redirectToLogin, []⟩

/-- `admin_required`: defined in the source as `role_required('admin')(view_func)`. -/
def admin_required {α β : Type} (view_func : Request → β → α) :
    Request → β → GuardResult α :=
  role_required ["admin"] view_func

/-- `researcher_or_admin_required`: defined in the source as
`role_required('admin', 'researcher')(view_func)`. -/
def researcher_or_admin_required {α β : Type} (view_func : Request → β → α) :
    Request → β → GuardResult α :=
  role_required ["admin", "researcher"] view_func

/-- `RoleRequiredMixin.test_func`: true when `allowed_roles` is empty (a falsy
list), otherwise `self.request.user.role in self.allowed_roles`. -/
def RoleRequiredMixin.test_func (allowed_roles : List String) (request : Request) : Bool :=
  if allowed_roles.isEmpty then true
  else decide (request.user.role ∈ allowed_roles)

/-- `RoleRequiredMixin.handle_no_permission`: for an authenticated user attach
the denial message and raise PermissionDenied; otherwise defer to the
inherited handler, which redirects to the login page. -/
def RoleRequiredMixin.handle_no_permission {α : Type} (allowed_roles : List String)
    (request : Request) : GuardResult α :=
  if request.user.is_authenticated then
    ⟨Outcome.permissionDenied, [denialMessage allowed_roles]⟩
  else
    ⟨Outcome.redirectToLogin, []⟩

/-- Dispatch through `RoleRequiredMixin(LoginRequiredMixin, UserPassesTestMixin)`:
`LoginRequiredMixin.dispatch` routes unauthenticated requests to
`handle_no_permission`; then `UserPassesTestMixin.dispatch` runs `test_func`
and routes failures to `handle_no_permission`; otherwise the view runs on the
original arguments. -/
def RoleRequiredMixin.dispatch {α β : Type} (allowed_roles : List String)
    (view_func : Request → β → α) (request : Request) (args : β) : GuardResult α :=
  if request.user.is_authenticated then
    if RoleRequiredMixin.test_func allowed_roles request then
      ⟨Outcome.ok (view_func request args), []⟩
    else
      RoleRequiredMixin.handle_no_permission allowed_roles request
  else
    RoleRequiredMixin.handle_no_permission allowed_roles request

/-- `AdminRequiredMixin`: `RoleRequiredMixin` with `allowed_roles = ['admin']`. -/
def AdminRequiredMixin.dispatch {α β : Type} (view_func : Request → β → α)
    (request : Request) (args : β) : GuardResult α :=
  RoleRequiredMixin.dispatch ["admin"] view_func request args

/-- `ResearcherOrAdminMixin`: `RoleRequiredMixin` with
`allowed_roles = ['admin', 'researcher']`. -/
def ResearcherOrAdminMixin.dispatch {α β : Type} (view_func : Request → β → α)
    (request : Request) (args : β) : GuardResult α :=
  RoleRequiredMixin.dispatch ["admin", "researcher"] view_func request args

/-- A guarded target object, as `get_object()` resolves it: the fields that
hold user references, as (field name, user) pairs. -/
structure DbObject where
  fields : List (String × User)
deriving DecidableEq

/-- `getattr(obj, self.owner_field, None)`: the first binding of the field on
the object, or `None` when the field is absent — never an error, since the
call supplies a default. -/
def getattr (obj : DbObject) (field : String) : Option User :=
  (obj.fields.find? (fun p => p.1 == field)).map (fun p => p.2)

/-- Default value of `StaffOrOwnerMixin.owner_field`. -/
def StaffOrOwnerMixin.owner_field_default : String := "user"

/-- Steps the ownership guard performs, recorded in order for the
evaluation-order claims. -/
inductive Event where
  | getObject
  | getOwnerAttr
  | readRole
  | loginCheck
  | callView
deriving DecidableEq

/-- `StaffOrOwnerMixin.dispatch`, paired with the trace of steps it takes: it
resolves the object via `get_object()`, reads the owner attribute and the
requester's role first; when `request.user.role in ['admin', 'researcher'] or
owner == request.user` it reaches `super().dispatch`, where
`LoginRequiredMixin` redirects an unauthenticated request to login or lets
the view run; otherwise it attaches the generic denial message and raises
PermissionDenied. -/
def StaffOrOwnerMixin.dispatch {α β : Type} (owner_field : String) (obj : DbObject)
    (view_func : Request → β → α) (request : Request) (args : β) :
    GuardResult α × List Event :=
  let owner := getattr obj owner_field
  if request.user.role ∈ ["admin", "researcher"] ∨ owner = some request.user then
    if request.user.is_authenticated then
      (⟨Outcome.ok (view_func request args), []⟩,
        [Event.getObject, Event.getOwnerAttr, Event.readRole, Event.loginCheck,
          Event.callView])
    else
      (⟨Outcome.redirectToLogin, []⟩,
        [Event.getObject, Event.getOwnerAttr, Event.readRole, Event.loginCheck])
  else
    (⟨Outcome.permissionDenied,
        ["You do not have permission to access this resource."]⟩,
      [Event.getObject, Event.getOwnerAttr, Event.readRole])

/-- C2: `RoleRequiredMixin.test_func` returns true iff `allowed_roles` is
empty or the requester's role is a member of it; in particular, with the
default empty `allowed_roles`, every authenticated user is permitted and the
view runs. -/
theorem C2_test_func_iff {α β : Type} (S : List String) (view_func : Request → β → α)
    (request : Request) (args : β) (h : request.user.is_authenticated = true) :
    (RoleRequiredMixin.test_func S request = true ↔ (S = [] ∨ request.user.role ∈ S)) ∧
    RoleRequiredMixin.dispatch [] view_func request args
      = ⟨Outcome.ok (view_func request args), []⟩ := by
  constructor
  · unfold RoleRequiredMixin.test_func
    cases S with
    | nil => simp
    | cons a l => simp
  · unfold RoleRequiredMixin.dispatch RoleRequiredMixin.test_func
    simp [h]

/-- C2 witness: the amended-free claim at a concrete authenticated member
request with a nonempty and with the default empty role list. -/
theorem C2_test_func_iff_witness :
    ((RoleRequiredMixin.test_func ["admin", "researcher"] ⟨0, ⟨1, true, "member"⟩⟩ = true
        ↔ ((["admin", "researcher"] : List String) = []
            ∨ (⟨0, ⟨1, true, "member"⟩⟩ : Request).user.role ∈ ["admin", "researcher"])) ∧
      @RoleRequiredMixin.dispatch Nat Unit [] (fun _ _ => 5) ⟨0, ⟨1, true, "member"⟩⟩ ()
        = ⟨Outcome.ok 5, []⟩) ∧
    (⟨0, ⟨1, true, "member"⟩⟩ : Request).user.is_authenticated = true :=
  ⟨C2_test_func_iff ["admin", "researcher"] (fun _ _ => 5) ⟨0, ⟨1, true, "member"⟩⟩ () rfl,
    rfl⟩

/-- C3: for an authenticated request, the function guard's role policy lets
the view run iff the requester's role is a member of the guard's role set;
with the empty set it denies every role with PermissionDenied, whereas the
class-based mixin's empty `allowed_roles` passes `test_func` for everyone. -/
theorem C3_policy_membership {α β : Type} (S : List String) (view_func : Request → β → α)
    (request : Request) (args : β) (h : request.user.is_authenticated = true) :
    ((role_required S view_func request args).outcome = Outcome.ok (view_func request args)
        ↔ request.user.role ∈ S) ∧
    (role_required [] view_func request args).outcome = Outcome.permissionDenied ∧
    RoleRequiredMixin.test_func [] request = true := by
  refine ⟨?_, ?_, by simp [RoleRequiredMixin.test_func]⟩
  · unfold role_required
    by_cases hr : request.user.role ∈ S <;> simp [h, hr]
  · unfold role_required
    simp [h]

/-- C3 witness: the policy at a concrete authenticated request, for a
nonempty set containing the role and for the empty set. -/
theorem C3_policy_membership_witness :
    (((@role_required Nat Unit ["admin"] (fun _ _ => 3) ⟨0, ⟨1, true, "admin"⟩⟩ ()).outcome
        = Outcome.ok 3
      ↔ (⟨0, ⟨1, true, "admin"⟩⟩ : Request).user.role ∈ ["admin"]) ∧
      (@role_required Nat Unit [] (fun _ _ => 3) ⟨0, ⟨1, true, "admin"⟩⟩ ()).outcome
        = Outcome.permissionDenied ∧
      RoleRequiredMixin.test_func [] ⟨0, ⟨1, true, "admin"⟩⟩ = true) ∧
    (⟨0, ⟨1, true, "admin"⟩⟩ : Request).user.is_authenticated = true :=
  ⟨C3_policy_membership ["admin"] (fun _ _ => 3) ⟨0, ⟨1, true, "admin"⟩⟩ () rfl, rfl⟩

/-- C5: an authenticated request whose user's role is outside the guard's
role set gets exactly the denial message joining the allowed roles with
`" or "`, a PermissionDenied outcome, and the wrapped handler is never
invoked: the guard's result does not depend on the handler. -/
theorem C5_denied_message {α β : Type} (S : List String)
    (view_func other_func : Request → β → α) (request : Request) (args : β)
    (h : request.user.is_authenticated = true) (hr : request.user.role ∉ S) :
    role_required S view_func request args
      = ⟨Outcome.permissionDenied,
          ["Access denied. This feature requires "
            ++ String.intercalate " or " S ++ " role."]⟩ ∧
    role_required S view_func request args = role_required S other_func request args := by
  unfold role_required denialMessage
  simp [h, hr]

/-- C5 witness: the denial at a concrete authenticated member request
against the `admin`/`researcher` guard, with the concrete joined message. -/
theorem C5_denied_message_witness :
    (@role_required Nat Unit ["admin", "researcher"] (fun _ _ => 7)
        ⟨0, ⟨1, true, "member"⟩⟩ ()
      = ⟨Outcome.permissionDenied,
          ["Access denied. This feature requires "
            ++ String.intercalate " or " ["admin", "researcher"] ++ " role."]⟩ ∧
      @role_required Nat Unit ["admin", "researcher"] (fun _ _ => 7)
          ⟨0, ⟨1, true, "member"⟩⟩ ()
        = @role_required Nat Unit ["admin", "researcher"] (fun _ _ => 99)
            ⟨0, ⟨1, true, "member"⟩⟩ ()) ∧
    (⟨0, ⟨1, true, "member"⟩⟩ : Request).user.is_authenticated = true ∧
    (⟨0, ⟨1, true, "member"⟩⟩ : Request).user.role ∉ ["admin", "researcher"] :=
  ⟨C5_denied_message ["admin", "researcher"] (fun _ _ => 7) (fun _ _ => 99)
      ⟨0, ⟨1, true, "member"⟩⟩ () rfl (by decide),
    rfl, by decide⟩

/-- C6: an authenticated request whose user's role is in the guard's role set
gets the wrapped handler's result on the original request and arguments,
verbatim, with no messages attached. -/
theorem C6_permitted_verbatim {α β : Type} (S : List String)
    (view_func : Request → β → α) (request : Request) (args : β)
    (h : request.user.is_authenticated = true) (hr : request.user.role ∈ S) :
    role_required S view_func request args = ⟨Outcome.ok (view_func request args), []⟩ := by
  unfold role_required
  simp [h, hr]

/-- C6 witness: a concrete authenticated admin request passes through and the
handler's value on the original arguments comes back verbatim. -/
theorem C6_permitted_verbatim_witness :
    @role_required Nat Nat ["admin", "researcher"] (fun _ a => a * 3)
        ⟨0, ⟨1, true, "admin"⟩⟩ 14
      = ⟨Outcome.ok 42, []⟩ ∧
    (⟨0, ⟨1, true, "admin"⟩⟩ : Request).user.is_authenticated = true ∧
    (⟨0, ⟨1, true, "admin"⟩⟩ : Request).user.role ∈ ["admin", "researcher"] :=
  ⟨C6_permitted_verbatim ["admin", "researcher"] (fun _ a => a * 3)
      ⟨0, ⟨1, true, "admin"⟩⟩ 14 rfl (by decide),
    rfl, by decide⟩

/-- C8: the named presets are exactly the function guard at their fixed role
sets, and the fixed-role mixins behave identically to those presets on every
request: same outcome and same attached messages. -/
theorem C8_presets_equivalent {α β : Type} (view_func : Request → β → α)
    (request : Request) (args : β) :
    admin_required view_func request args
      = role_required ["admin"] view_func request args ∧
    researcher_or_admin_required view_func request args
      = role_required ["admin", "researcher"] view_func request args ∧
    AdminRequiredMixin.dispatch view_func request args
      = role_required ["admin"] view_func request args ∧
    ResearcherOrAdminMixin.dispatch view_func request args
      = role_required ["admin", "researcher"] view_func request args := by
  refine ⟨rfl, rfl, ?_, ?_⟩
  · unfold AdminRequiredMixin.dispatch RoleRequiredMixin.dispatch
      RoleRequiredMixin.test_func RoleRequiredMixin.handle_no_permission role_required
    by_cases hauth : request.user.is_authenticated <;>
      by_cases hr : request.user.role = "admin" <;>
      simp [hauth, hr]
  · unfold ResearcherOrAdminMixin.dispatch RoleRequiredMixin.dispatch
      RoleRequiredMixin.test_func RoleRequiredMixin.handle_no_permission role_required
    by_cases hauth : request.user.is_authenticated <;>
      by_cases hr : request.user.role = "admin" <;>
      by_cases hr2 : request.user.role = "researcher" <;>
      simp [hauth, hr, hr2]

/-- C9: guard evaluation carries no hidden state: two distinct request
objects with the same user get the same permit/deny decision from the
function guard, the mixin dispatch, and the mixin's `test_func`, all as pure
functions of the definition-time role set, which every evaluation receives
unchanged. -/
theorem C9_stateless {α β : Type} (S : List String) (view_func : Request → β → α)
    (r1 r2 : Request) (args : β) (h : r1.user = r2.user) :
    (role_required S view_func r1 args).outcome.decision
      = (role_required S view_func r2 args).outcome.decision ∧
    (role_required S view_func r1 args).messages
      = (role_required S view_func r2 args).messages ∧
    (RoleRequiredMixin.dispatch S view_func r1 args).outcome.decision
      = (RoleRequiredMixin.dispatch S view_func r2 args).outcome.decision ∧
    RoleRequiredMixin.test_func S r1 = RoleRequiredMixin.test_func S r2 := by
  have htest : RoleRequiredMixin.test_func S r1 = RoleRequiredMixin.test_func S r2 := by
    unfold RoleRequiredMixin.test_func
    rw [← h]
  refine ⟨?_, ?_, ?_, htest⟩
  · unfold role_required
    rw [← h]
    by_cases hauth : r1.user.is_authenticated <;>
      by_cases hr : r1.user.role ∈ S <;>
      simp [hauth, hr, Outcome.decision]
  · unfold role_required
    rw [← h]
    by_cases hauth : r1.user.is_authenticated <;>
      by_cases hr : r1.user.role ∈ S <;>
      simp [hauth, hr]
  · unfold RoleRequiredMixin.dispatch RoleRequiredMixin.handle_no_permission
    rw [← h, ← htest]
    by_cases hauth : r1.user.is_authenticated <;>
      by_cases ht : RoleRequiredMixin.test_func S r1 = true <;>
      simp [hauth, ht, Outcome.decision]

/-- C9 witness: two distinct request objects (different ids) carrying the
same member user get identical decisions under the `admin` guard. -/
theorem C9_stateless_witness :
    ((@role_required Nat Unit ["admin"] (fun _ _ => 1)
          ⟨0, ⟨7, true, "member"⟩⟩ ()).outcome.decision
        = (@role_required Nat Unit ["admin"] (fun _ _ => 1)
            ⟨1, ⟨7, true, "member"⟩⟩ ()).outcome.decision ∧
      (@role_required Nat Unit ["admin"] (fun _ _ => 1)
          ⟨0, ⟨7, true, "member"⟩⟩ ()).messages
        = (@role_required Nat Unit ["admin"] (fun _ _ => 1)
            ⟨1, ⟨7, true, "member"⟩⟩ ()).messages ∧
      (@RoleRequiredMixin.dispatch Nat Unit ["admin"] (fun _ _ => 1)
          ⟨0, ⟨7, true, "member"⟩⟩ ()).outcome.decision
        = (@RoleRequiredMixin.dispatch Nat Unit ["admin"] (fun _ _ => 1)
            ⟨1, ⟨7, true, "member"⟩⟩ ()).outcome.decision ∧
      RoleRequiredMixin.test_func ["admin"] ⟨0, ⟨7, true, "member"⟩⟩
        = RoleRequiredMixin.test_func ["admin"] ⟨1, ⟨7, true, "member"⟩⟩) ∧
    (⟨0, ⟨7, true, "member"⟩⟩ : Request) ≠ ⟨1, ⟨7, true, "member"⟩⟩ :=
  ⟨C9_stateless ["admin"] (fun _ _ => 1) ⟨0, ⟨7, true, "member"⟩⟩
      ⟨1, ⟨7, true, "member"⟩⟩ () rfl,
    by decide⟩

/-- C10: on every request, the ownership guard's trace begins with resolving
the object, reading the owner attribute and reading the requester's role —
so these happen even for unauthenticated or ultimately denied requests — and
it reaches the inherited login-required check (via `super().dispatch`) iff
the role/ownership check passes. -/
theorem C10_checks_before_login {α β : Type} (owner_field : String) (obj : DbObject)
    (view_func : Request → β → α) (request : Request) (args : β) :
    (∃ rest, (StaffOrOwnerMixin.dispatch owner_field obj view_func request args).2
        = [Event.getObject, Event.getOwnerAttr, Event.readRole] ++ rest) ∧
    (Event.loginCheck
        ∈ (StaffOrOwnerMixin.dispatch owner_field obj view_func request args).2
      ↔ (request.user.role ∈ ["admin", "researcher"]
          ∨ getattr obj owner_field = some request.user)) := by
  unfold StaffOrOwnerMixin.dispatch
  by_cases hc : request.user.role ∈ ["admin", "researcher"]
      ∨ getattr obj owner_field = some request.user
  · by_cases hauth : request.user.is_authenticated = true
    · refine ⟨⟨[Event.loginCheck, Event.callView], ?_⟩, ?_⟩
      · simp only [StaffOrOwnerMixin.dispatch, if_pos hc, if_pos hauth]
        rfl
      · simp only [StaffOrOwnerMixin.dispatch, if_pos hc, if_pos hauth]
        exact iff_of_true (by decide) hc
    · refine ⟨⟨[Event.loginCheck], ?_⟩, ?_⟩
      · simp only [StaffOrOwnerMixin.dispatch, if_pos hc, if_neg hauth]
        rfl
      · simp only [StaffOrOwnerMixin.dispatch, if_pos hc, if_neg hauth]
        exact iff_of_true (by decide) hc
  · refine ⟨⟨[], ?_⟩, ?_⟩
    · simp only [StaffOrOwnerMixin.dispatch, if_neg hc]
      rfl
    · simp only [StaffOrOwnerMixin.dispatch, if_neg hc]
      exact iff_of_false (by decide) hc

/-- C1 counterexample: an unauthenticated request with role "member" to a
`StaffOrOwnerMixin`-guarded endpoint whose object is owned by a different
user ends in PermissionDenied, not in a redirect to login, because the
role/ownership check runs before the inherited login-required check. -/
theorem C1_counterexample :
    ((@StaffOrOwnerMixin.dispatch Nat Unit "user" ⟨[("user", ⟨1, true, "member"⟩)]⟩
        (fun _ _ => 0) ⟨0, ⟨2, false, "member"⟩⟩ ()).1.outcome
      = Outcome.permissionDenied) ∧
    ((@StaffOrOwnerMixin.dispatch Nat Unit "user" ⟨[("user", ⟨1, true, "member"⟩)]⟩
        (fun _ _ => 0) ⟨0, ⟨2, false, "member"⟩⟩ ()).1.outcome
      ≠ Outcome.redirectToLogin) ∧
    (⟨0, ⟨2, false, "member"⟩⟩ : Request).user.is_authenticated = false := by
  decide

/-- C1 (amended): an unauthenticated request to the function guard or to the
role mixin always gets a redirect to login, never PermissionDenied; for the
ownership mixin, an unauthenticated request is redirected to login only when
its role/ownership check passes, and otherwise gets PermissionDenied. -/
theorem C1_unauthenticated {α β : Type} (roles S : List String)
    (view_func : Request → β → α) (owner_field : String) (obj : DbObject)
    (request : Request) (args : β)
    (h : request.user.is_authenticated = false) :
    (role_required roles view_func request args).outcome = Outcome.redirectToLogin ∧
    (RoleRequiredMixin.dispatch S view_func request args).outcome
      = Outcome.redirectToLogin ∧
    ((request.user.role ∈ ["admin", "researcher"]
        ∨ getattr obj owner_field = some request.user) →
      (StaffOrOwnerMixin.dispatch owner_field obj view_func request args).1.outcome
        = Outcome.redirectToLogin) ∧
    (¬(request.user.role ∈ ["admin", "researcher"]
        ∨ getattr obj owner_field = some request.user) →
      (StaffOrOwnerMixin.dispatch owner_field obj view_func request args).1.outcome
        = Outcome.permissionDenied) := by
  have hauth : ¬(request.user.is_authenticated = true) := by simp [h]
  refine ⟨?_, ?_, ?_, ?_⟩
  · unfold role_required
    simp [h]
  · unfold RoleRequiredMixin.dispatch RoleRequiredMixin.handle_no_permission
    simp [h]
  · intro hc
    simp only [StaffOrOwnerMixin.dispatch, if_pos hc, if_neg hauth]
  · intro hc
    simp only [StaffOrOwnerMixin.dispatch, if_neg hc]

/-- C1 witness: the amended claim at a concrete unauthenticated member
request against the `admin`/`researcher` function guard, the `admin` mixin
and an ownership-guarded object owned by someone else. -/
theorem C1_unauthenticated_witness :
    ((@role_required Nat Unit ["admin", "researcher"] (fun _ _ => 2)
          ⟨3, ⟨6, false, "member"⟩⟩ ()).outcome = Outcome.redirectToLogin ∧
      (@RoleRequiredMixin.dispatch Nat Unit ["admin"] (fun _ _ => 2)
          ⟨3, ⟨6, false, "member"⟩⟩ ()).outcome = Outcome.redirectToLogin ∧
      (((⟨3, ⟨6, false, "member"⟩⟩ : Request).user.role ∈ ["admin", "researcher"]
          ∨ getattr ⟨[("user", ⟨5, true, "admin"⟩)]⟩ "user"
              = some (⟨3, ⟨6, false, "member"⟩⟩ : Request).user) →
        (@StaffOrOwnerMixin.dispatch Nat Unit "user" ⟨[("user", ⟨5, true, "admin"⟩)]⟩
            (fun _ _ => 2) ⟨3, ⟨6, false, "member"⟩⟩ ()).1.outcome
          = Outcome.redirectToLogin) ∧
      (¬((⟨3, ⟨6, false, "member"⟩⟩ : Request).user.role ∈ ["admin", "researcher"]
          ∨ getattr ⟨[("user", ⟨5, true, "admin"⟩)]⟩ "user"
              = some (⟨3, ⟨6, false, "member"⟩⟩ : Request).user) →
        (@StaffOrOwnerMixin.dispatch Nat Unit "user" ⟨[("user", ⟨5, true, "admin"⟩)]⟩
            (fun _ _ => 2) ⟨3, ⟨6, false, "member"⟩⟩ ()).1.outcome
          = Outcome.permissionDenied)) ∧
    (⟨3, ⟨6, false, "member"⟩⟩ : Request).user.is_authenticated = false :=
  ⟨C1_unauthenticated ["admin", "researcher"] ["admin"] (fun _ _ => 2) "user"
      ⟨[("user", ⟨5, true, "admin"⟩)]⟩ ⟨3, ⟨6, false, "member"⟩⟩ () rfl,
    rfl⟩

/-- C4 counterexample: an unauthenticated requester with role "admin" is not
permitted (the view does not run), yet the outcome is a redirect to login,
not the PermissionDenied that the claim's "otherwise" clause states. -/
theorem C4_counterexample :
    ((@StaffOrOwnerMixin.dispatch Nat Unit "user" ⟨[]⟩ (fun _ _ => 0)
        ⟨0, ⟨3, false, "admin"⟩⟩ ()).1.outcome ≠ Outcome.ok 0) ∧
    ((@StaffOrOwnerMixin.dispatch Nat Unit "user" ⟨[]⟩ (fun _ _ => 0)
        ⟨0, ⟨3, false, "admin"⟩⟩ ()).1.outcome ≠ Outcome.permissionDenied) ∧
    ((@StaffOrOwnerMixin.dispatch Nat Unit "user" ⟨[]⟩ (fun _ _ => 0)
        ⟨0, ⟨3, false, "admin"⟩⟩ ()).1.outcome = Outcome.redirectToLogin) ∧
    (⟨0, ⟨3, false, "admin"⟩⟩ : Request).user.is_authenticated = false := by
  decide

/-- C4 (amended): `StaffOrOwnerMixin` dispatches to the view iff the
requester is authenticated and has role "admin" or "researcher" or equals
the object's owner-field value; PermissionDenied arises exactly when the
role/ownership check fails, while a passing check by an unauthenticated
requester is redirected to login rather than denied. -/
theorem C4_staff_or_owner {α β : Type} (owner_field : String) (obj : DbObject)
    (view_func : Request → β → α) (request : Request) (args : β) :
    ((StaffOrOwnerMixin.dispatch owner_field obj view_func request args).1.outcome
        = Outcome.ok (view_func request args)
      ↔ (request.user.is_authenticated = true ∧
          (request.user.role ∈ ["admin", "researcher"]
            ∨ getattr obj owner_field = some request.user))) ∧
    ((StaffOrOwnerMixin.dispatch owner_field obj view_func request args).1.outcome
        = Outcome.permissionDenied
      ↔ ¬(request.user.role ∈ ["admin", "researcher"]
            ∨ getattr obj owner_field = some request.user)) := by
  by_cases hc : request.user.role ∈ ["admin", "researcher"]
      ∨ getattr obj owner_field = some request.user
  · by_cases hauth : request.user.is_authenticated = true
    · constructor
      · simp only [StaffOrOwnerMixin.dispatch, if_pos hc, if_pos hauth]
        exact iff_of_true trivial ⟨hauth, hc⟩
      · simp only [StaffOrOwnerMixin.dispatch, if_pos hc, if_pos hauth]
        exact iff_of_false (by simp) (not_not_intro hc)
    · constructor
      · simp only [StaffOrOwnerMixin.dispatch, if_pos hc, if_neg hauth]
        exact iff_of_false (by simp) (fun hx => hauth hx.1)
      · simp only [StaffOrOwnerMixin.dispatch, if_pos hc, if_neg hauth]
        exact iff_of_false (by simp) (not_not_intro hc)
  · constructor
    · simp only [StaffOrOwnerMixin.dispatch, if_neg hc]
      exact iff_of_false (by simp) (fun hx => hc hx.2)
    · simp only [StaffOrOwnerMixin.dispatch, if_neg hc]
      exact iff_of_true trivial hc

/-- C7: when the configured owner field is absent on the object, `getattr`
(called with a `None` default, so it cannot fail) yields `None`, the
ownership comparison is false, and dispatch is decided by the role check
alone: PermissionDenied for an unprivileged role. -/
theorem C7_absent_owner_field {α β : Type} (owner_field : String) (obj : DbObject)
    (view_func : Request → β → α) (request : Request) (args : β)
    (h : ∀ p ∈ obj.fields, p.1 ≠ owner_field) :
    getattr obj owner_field = none ∧
    (getattr obj owner_field == some request.user) = false ∧
    (request.user.role ∉ ["admin", "researcher"] →
      (StaffOrOwnerMixin.dispatch owner_field obj view_func request args).1.outcome
        = Outcome.permissionDenied) := by
  have hfind : obj.fields.find? (fun p => p.1 == owner_field) = none := by
    apply List.find?_eq_none.mpr
    intro p hp
    simpa using h p hp
  have hnone : getattr obj owner_field = none := by
    unfold getattr
    rw [hfind]
    rfl
  refine ⟨hnone, by rw [hnone]; rfl, ?_⟩
  intro hrole
  have hc : ¬(request.user.role ∈ ["admin", "researcher"]
      ∨ getattr obj owner_field = some request.user) := by
    rw [hnone]
    rintro (hmem | hsome)
    · exact hrole hmem
    · exact Option.noConfusion hsome
  simp only [StaffOrOwnerMixin.dispatch, if_neg hc]

/-- C7 witness: a concrete object storing its owner under "reported_by"
while the guard is configured with the default "user" field, requested by an
authenticated unprivileged member: the lookup yields `None`, the comparison
is false, and the outcome is PermissionDenied. -/
theorem C7_absent_owner_field_witness :
    (getattr ⟨[("reported_by", ⟨1, true, "member"⟩)]⟩ "user" = none ∧
      (getattr ⟨[("reported_by", ⟨1, true, "member"⟩)]⟩ "user"
          == some (⟨4, ⟨2, true, "member"⟩⟩ : Request).user) = false ∧
      ((⟨4, ⟨2, true, "member"⟩⟩ : Request).user.role ∉ ["admin", "researcher"] →
        (@StaffOrOwnerMixin.dispatch Nat Unit "user"
            ⟨[("reported_by", ⟨1, true, "member"⟩)]⟩ (fun _ _ => 9)
            ⟨4, ⟨2, true, "member"⟩⟩ ()).1.outcome = Outcome.permissionDenied)) ∧
    (∀ p ∈ (⟨[("reported_by", ⟨1, true, "member"⟩)]⟩ : DbObject).fields,
      p.1 ≠ "user") :=
  ⟨C7_absent_owner_field "user" ⟨[("reported_by", ⟨1, true, "member"⟩)]⟩
      (fun _ _ => 9) ⟨4, ⟨2, true, "member"⟩⟩ () (by decide),
    by decide⟩
